import Mathlib

/-!
# Verification of the API-key manager (`src/models/api-keys/index.ts`)

A shallow embedding of the `ApiKeyManager` class: the three-tier lookup
(`getApiKey`), creation (`create`), cache eviction (`deleteCachedApiKey`)
and update (`update`).  External collaborators (postgres via `idb`/`redb`,
redis, the pub/sub channel, the audit webhook) are modelled as explicit
state plus per-call behaviour modes; the manager's control flow is
translated line by line from the source.
-/

namespace ApiKeys

/-- A row of the `api_keys` table (Store row layout: `key` text primary
key, `app_name`, `website`, `email` text, `tier` integer, `active`
boolean). -/
structure DbRow where
  key : String
  app_name : String
  website : String
  email : String
  tier : Int
  active : Bool
  deriving Repr, DecidableEq

/-- Modelled from the spec: `ApiKeyEntity` (defined in
`api-key-entity.ts`, not part of the reviewed sources) is an immutable
read view carrying the same fields as a Store row. -/
structure ApiKeyEntity where
  key : String
  app_name : String
  website : String
  email : String
  tier : Int
  active : Bool
  deriving Repr, DecidableEq

/-- `new ApiKeyEntity(fromDb)` / `new ApiKeyEntity(JSON.parse(blob))`:
field-for-field construction from a row. -/
def toEntity (r : DbRow) : ApiKeyEntity :=
  ⟨r.key, r.app_name, r.website, r.email, r.tier, r.active⟩

/-- `ApiKeyRecord` from the source: `key` is optional (`key?: string`). -/
structure ApiKeyRecord where
  app_name : String
  website : String
  email : String
  tier : Int
  key : Option String
  deriving Repr, DecidableEq

/-- A redis value.  `str` is a plain string (only `"empty"` is ever
written by this code); `json` stands for `JSON.stringify` of a row (the
blob `JSON.parse` reconstructs); `hash` is a redis hash written by
`hset`. -/
inductive RedisVal where
  | str : String → RedisVal
  | json : DbRow → RedisVal
  | hash : List (String × String) → RedisVal
  deriving Repr, DecidableEq

/-- A redis entry: value plus optional expiration (seconds). -/
structure RedisEntry where
  val : RedisVal
  ttl : Option Nat
  deriving Repr, DecidableEq

/-- Association-list lookup (first binding wins, as in `Map.get`). -/
def alookup {α : Type} : List (String × α) → String → Option α
  | [], _ => none
  | (k', v) :: rest, k => if k' = k then some v else alookup rest k

/-- Association-list insert-or-replace (`Map.set` / redis `SET`). -/
def aset {α : Type} : List (String × α) → String → α → List (String × α)
  | [], k, v => [(k, v)]
  | (k', v') :: rest, k, v =>
    if k' = k then (k, v) :: rest else (k', v') :: aset rest k v

/-- Association-list delete (`Map.delete` / redis `DEL`). -/
def adel {α : Type} (l : List (String × α)) (k : String) : List (String × α) :=
  l.filter (fun p => p.1 ≠ k)

/-- The system state visible to the manager: the process-local
`ApiKeyManager.apiKeys` map, the redis keyspace, the `api_keys` table
and the list of published pub/sub messages (channel, payload). -/
structure SysState where
  apiKeys : List (String × ApiKeyEntity)
  redis : List (String × RedisEntry)
  db : List DbRow
  published : List (String × String)
  deriving Repr, DecidableEq

/-- Behaviour of redis for the duration of one manager call: it answers
normally, every call outruns the 1000 ms race timeout, or calls reject
with an error. -/
inductive RedisMode where
  | ok
  | timeout
  | error
  deriving Repr, DecidableEq

/-- Behaviour of a Store read (`redb.oneOrNone`). -/
inductive DbMode where
  | ok
  | error
  deriving Repr, DecidableEq

/-- JavaScript truthiness of `redis.get`'s `string | null` result:
`null` and `""` are falsy. -/
def truthy : Option RedisVal → Bool
  | none => false
  | some (.str s) => s ≠ ""
  | some _ => true

/-- `SELECT * FROM api_keys WHERE key = $/key/ AND active = true`
(`oneOrNone`: first matching row or none). -/
def findActive (db : List DbRow) (key : String) : Option DbRow :=
  db.find? (fun r => r.key = key && r.active)

/-- Outcome of one `getApiKey` call: the returned value, the state after
the call, and how many Store resp. redis calls were issued. -/
structure LookupOut where
  result : Option ApiKeyEntity
  state : SysState
  storeCalls : Nat
  redisCalls : Nat
  deriving Repr, DecidableEq

/-- `ApiKeyManager.getApiKey`, translated from the source:

1. local-cache hit returns immediately;
2. otherwise `Promise.race([redis.get("api-key:" + key), timeout])`:
   in `timeout` mode the race yields `null`; in `error` mode the `await`
   throws, and since the single `try` block wraps both the redis read and
   the database query, control jumps to the `catch` and the function
   returns `null` without ever consulting the Store;
3. a truthy cached value is either the `"empty"` marker (return `null`)
   or a serialized entity (populate the local cache, return it); any
   other truthy value makes `JSON.parse` / `redis.get` throw (e.g.
   WRONGTYPE on a hash), again landing in the `catch`;
4. a falsy value falls through to the Store: a found row is written back
   to redis (fire-and-forget, raced — the write only lands in `ok` mode)
   with no expiration and cached locally; otherwise a pipeline writes the
   `"empty"` marker with `EXPIRE 3600 * 24` and `null` is returned. -/
def getApiKey (mode : RedisMode) (dbMode : DbMode) (st : SysState)
    (key : String) : LookupOut :=
  match alookup st.apiKeys key with
  | some cached => ⟨some cached, st, 0, 0⟩
  | none =>
    let redisKey := "api-key:" ++ key
    match mode with
    | .error => ⟨none, st, 0, 1⟩
    | .timeout =>
      -- race resolved by the timer: `apiKey` is `null`, go to the db
      match dbMode with
      | .error => ⟨none, st, 1, 1⟩
      | .ok =>
        match findActive st.db key with
        | some r =>
          -- raced write loses in timeout mode: redis unchanged
          let e := toEntity r
          ⟨some e, { st with apiKeys := aset st.apiKeys key e }, 1, 2⟩
        | none =>
          -- raced pipeline also loses: redis unchanged
          ⟨none, st, 1, 2⟩
    | .ok =>
      let apiKey := alookup st.redis redisKey
      if truthy (apiKey.map RedisEntry.val) then
        match apiKey.map RedisEntry.val with
        | some (.str "empty") => ⟨none, st, 0, 1⟩
        | some (.json r) =>
          let e := toEntity r
          ⟨some e, { st with apiKeys := aset st.apiKeys key e }, 0, 1⟩
        | _ =>
          -- JSON.parse / WRONGTYPE throws; caught, logged, null
          ⟨none, st, 0, 1⟩
      else
        match dbMode with
        | .error => ⟨none, st, 1, 1⟩
        | .ok =>
          match findActive st.db key with
          | some r =>
            let e := toEntity r
            ⟨some e,
              { st with
                redis := aset st.redis redisKey ⟨.json r, none⟩,
                apiKeys := aset st.apiKeys key e }, 1, 2⟩
          | none =>
            ⟨none,
              { st with
                redis := aset st.redis redisKey ⟨.str "empty", some 86400⟩ },
              1, 2⟩

/-- `ApiKeyManager.deleteCachedApiKey`: evict from the local map and
`DEL api-key:<key>` in redis. -/
def deleteCachedApiKey (st : SysState) (key : String) : SysState :=
  { st with
    apiKeys := adel st.apiKeys key,
    redis := adel st.redis ("api-key:" ++ key) }

/-! ## Creation -/

/-- JavaScript template interpolation of a `string | undefined` value:
`` `${undefined}` `` is the string `"undefined"`. -/
def jsShow : Option String → String
  | none => "undefined"
  | some s => s

/-- JavaScript falsiness of `values.key` (`!values.key`): `undefined`
and `""` are falsy. -/
def falsyKey : Option String → Bool
  | none => true
  | some s => s = ""

/-- The string hashed by `getUuidByString` when no key was supplied:
`` `${values.key}${values.email}${values.website}` ``. -/
def uuidSeed (v : ApiKeyRecord) : String :=
  jsShow v.key ++ v.email ++ v.website

/-- Behaviour of the Store insert (`idb.oneOrNone` of the
`INSERT ... ON CONFLICT DO NOTHING RETURNING 1`). -/
inductive InsertMode where
  | ok
  | error
  deriving Repr, DecidableEq

/-- Behaviour of the `redis.hset` cache write in `create`. -/
inductive CacheWriteMode where
  | ok
  | error
  deriving Repr, DecidableEq

/-- Behaviour of the audit webhook (`axios.post`); its rejection is
swallowed by the trailing `.catch`. -/
inductive NotifyMode where
  | ok
  | error
  deriving Repr, DecidableEq

/-- `Object.entries(values)` for the (possibly mutated) record, as
written into the redis hash by `hset`. -/
def recordEntries (v : ApiKeyRecord) : List (String × String) :=
  [("app_name", v.app_name), ("website", v.website), ("email", v.email),
   ("tier", toString v.tier), ("key", jsShow v.key)]

/-- Outcome of one `create` call: `result` is `some key` for the
`{ key }` response and `none` for the literal `false` failure return;
`values` is the caller's record after `create`'s in-place mutation;
`notifyCount` counts `notifyApiKeyCreated` invocations. -/
structure CreateOut where
  result : Option String
  values : ApiKeyRecord
  state : SysState
  notifyCount : Nat
  deriving Repr, DecidableEq

/-- `ApiKeyManager.create`, translated from the source:

1. if `values.key` is falsy, assign
   `getUuidByString(template)` into `values.key` (mutating the caller's
   record) — `uuid` stands for `getUuidByString`;
2. insert into the Store with `ON CONFLICT DO NOTHING RETURNING 1`; an
   existing row makes the insert a no-op returning no row (`created`
   falsy); a thrown error is logged and `create` returns `false`;
3. best-effort `hset` of the record under `"apikey:" + key` (note: no
   dash, and a redis *hash*, unlike the `"api-key:" + key` *string*
   entries read by `getApiKey`); a failure is logged and ignored;
4. `notifyApiKeyCreated` runs only when the insert created a row; its
   own failures are swallowed by `.catch`, so the returned `{ key }`
   never depends on the notify outcome (hence `create` ignores
   `NotifyMode` except for counting the invocation). -/
def create (uuid : String → String) (ins : InsertMode) (cw : CacheWriteMode)
    (_nm : NotifyMode) (st : SysState) (values : ApiKeyRecord) : CreateOut :=
  let values :=
    if falsyKey values.key then
      { values with key := some (uuid (uuidSeed values)) }
    else values
  let k := jsShow values.key
  match ins with
  | .error => ⟨none, values, st, 0⟩
  | .ok =>
    -- `ON CONFLICT DO NOTHING`: a row is created iff the key is new;
    -- the `active` column is filled by the table default (true).
    let created := (st.db.find? (fun r => r.key = k)).isNone
    let db' :=
      if created then
        st.db ++ [⟨k, values.app_name, values.website, values.email,
                   values.tier, true⟩]
      else st.db
    let redis' :=
      match cw with
      | .ok => aset st.redis ("apikey:" ++ k) ⟨.hash (recordEntries values), none⟩
      | .error => st.redis
    ⟨some k, values, { st with db := db', redis := redis' },
      if created then 1 else 0⟩

/-! ## Update -/

/-- Modelled from the spec: `ApiKeyUpdateParams` (defined in
`api-key-entity.ts`, not part of the reviewed sources) — a partial
record of the updatable Store columns (`appName`, `website`, `email`,
`tier`, `active`); `none` stands for an `undefined` field left
untouched. -/
structure ApiKeyUpdateParams where
  appName : Option String := none
  website : Option String := none
  email : Option String := none
  tier : Option Int := none
  active : Option Bool := none
  deriving Repr, DecidableEq

/-- The contribution of one field to the `_.forEach` loop: present when
the field is defined, absent when it is `undefined`. -/
def fieldTag (defined : Bool) (col fld : String) : List (String × String) :=
  if defined then [(col, fld)] else []

/-- The defined fields in `_.forEach` order, as
`(snake_case column, fieldName)` pairs. -/
def definedFields (f : ApiKeyUpdateParams) : List (String × String) :=
  fieldTag f.appName.isSome "app_name" "appName" ++
  fieldTag f.website.isSome "website" "website" ++
  fieldTag f.email.isSome "email" "email" ++
  fieldTag f.tier.isSome "tier" "tier" ++
  fieldTag f.active.isSome "active" "active"

/-- One `updateString` fragment:
`` `${_.snakeCase(fieldName)} = $/${fieldName}/,` ``. -/
def setFragment (p : String × String) : String :=
  p.1 ++ " = $/" ++ p.2 ++ "/,"

/-- `_.trimEnd(s, ",")`: strip every trailing comma. -/
def trimEndCommas (s : String) : String :=
  String.mk ((s.data.reverse.dropWhile (fun c => c = ',')).reverse)

/-- The `SET`-clause string built by `update`: concatenate one fragment
per defined field, then trim the trailing comma. -/
def updateString (f : ApiKeyUpdateParams) : String :=
  trimEndCommas (String.join ((definedFields f).map setFragment))

/-- The semantics of the generated `UPDATE` on one row: each defined
field overwrites the corresponding column. -/
def applyUpdate (f : ApiKeyUpdateParams) (r : DbRow) : DbRow :=
  { r with
    app_name := f.appName.getD r.app_name,
    website := f.website.getD r.website,
    email := f.email.getD r.email,
    tier := f.tier.getD r.tier,
    active := f.active.getD r.active }

/-- Modelled from the spec: `Channel.ApiKeyUpdated` (defined in
`pubsub/channels.ts`, not part of the reviewed sources) — the named
invalidation channel. -/
def apiKeyUpdatedChannel : String := "api-key-updated"

/-- `JSON.stringify({ key })`. -/
def invalidationPayload (key : String) : String :=
  "\x7b\"key\":\"" ++ key ++ "\"\x7d"

/-- `ApiKeyManager.update`, translated from the source: run the
generated `UPDATE ... WHERE key = $/key/` against the Store, evict the
key from both cache tiers via `deleteCachedApiKey`, then publish the
`{ key }` invalidation message on `Channel.ApiKeyUpdated`. -/
def update (st : SysState) (key : String) (f : ApiKeyUpdateParams) : SysState :=
  let afterDb :=
    { st with db := st.db.map (fun r => if r.key = key then applyUpdate f r else r) }
  let afterEvict := deleteCachedApiKey afterDb key
  { afterEvict with
    published := afterEvict.published ++
      [(apiKeyUpdatedChannel, invalidationPayload key)] }

/-! ## Helper lemmas -/

theorem alookup_aset_self {α : Type} (l : List (String × α)) (k : String) (v : α) :
    alookup (aset l k v) k = some v := by
  induction l with
  | nil => simp [aset, alookup]
  | cons p rest ih =>
    rcases p with ⟨k', v'⟩
    by_cases h : k' = k
    · simp [aset, h, alookup]
    · simp [aset, h, alookup, ih]

theorem alookup_adel_self {α : Type} (l : List (String × α)) (k : String) :
    alookup (adel l k) k = none := by
  induction l with
  | nil => rfl
  | cons p rest ih =>
    rcases p with ⟨k', v'⟩
    by_cases h : k' = k
    · simpa [adel, List.filter_cons, h] using ih
    · simpa [adel, List.filter_cons, h, alookup] using ih

theorem applyUpdate_key (f : ApiKeyUpdateParams) (r : DbRow) :
    (applyUpdate f r).key = r.key := rfl

theorem findActive_map_update (db : List DbRow) (key : String)
    (f : ApiKeyUpdateParams) (r : DbRow) (hf : f.active = none)
    (h : findActive db key = some r) :
    findActive (db.map (fun x => if x.key = key then applyUpdate f x else x)) key
      = some (applyUpdate f r) := by
  induction db with
  | nil => simp [findActive] at h
  | cons r0 rest ih =>
    by_cases h1 : r0.key = key
    · by_cases h2 : r0.active
      · have hr : r0 = r := by
          simpa [findActive, List.find?_cons, h1, h2] using h
        subst hr
        simp [findActive, List.find?_cons, h1, h2, applyUpdate, hf]
      · have h' : findActive rest key = some r := by
          simpa [findActive, List.find?_cons, h1, h2] using h
        simpa [findActive, List.find?_cons, h1, h2, applyUpdate, hf]
          using ih h'
    · have h' : findActive rest key = some r := by
        simpa [findActive, List.find?_cons, h1] using h
      simpa [findActive, List.find?_cons, h1] using ih h'

/-! ## Concrete fixtures -/

/-- An active Store row for key `"k1"`. -/
def fooRow : DbRow := ⟨"k1", "Foo", "foo.xyz", "a@b.com", 1, true⟩

/-- A state where `"k1"` exists only in the Store: both cache tiers are
empty. -/
def stStoreOnly : SysState := ⟨[], [], [fooRow], []⟩

/-- A state where the Distributed Cache already holds the negative
marker for `"z"` with a residual expiration of 5 seconds, and the key is
nowhere else. -/
def stStaleMarker : SysState :=
  ⟨[], [("api-key:z", ⟨.str "empty", some 5⟩)], [], []⟩

/-! ## Claims -/

/-- **C1, counterexample.** The claim says an erroring Distributed
Cache read is treated as a miss and the lookup falls through to the
Store, returning the Entity of an active row.  On the code it does not:
with the cache erroring and `"k1"` active in the Store, `getApiKey`
returns `null` and issues zero Store calls. -/
theorem C1_counterexample :
    (getApiKey .error .ok stStoreOnly "k1").result = none ∧
    (getApiKey .error .ok stStoreOnly "k1").storeCalls = 0 := by
  exact ⟨rfl, rfl⟩

/-- **C1, amended.** If the Distributed Cache read in `getApiKey`
errors (rather than merely timing out), the single `try` block catches
it after logging and the function returns `null` with the state
unchanged and the Store never consulted — fail closed, even for a key
with an active Store row; only a timed-out read falls through to the
Store. -/
theorem C1_cache_error_fails_closed (dm : DbMode) (st : SysState) (key : String)
    (hl : alookup st.apiKeys key = none) :
    getApiKey .error dm st key = ⟨none, st, 0, 1⟩ := by
  simp [getApiKey, hl]

/-- **C1, witness** for the amended theorem at a concrete state. -/
theorem C1_witness :
    getApiKey .error .ok stStoreOnly "k1" = ⟨none, stStoreOnly, 0, 1⟩ :=
  C1_cache_error_fails_closed .ok stStoreOnly "k1" rfl

/-- **C8.** If every Distributed Cache call outruns the 1000 ms race
timeout, `getApiKey` treats the cache tier as a miss, answers from the
Store, returns the corresponding Entity (no cache error reaches the
caller), populates the Process-Local Cache, and the raced fire-and-forget
cache write never lands (redis unchanged). -/
theorem C8_timeout_degrades_to_store (st : SysState) (key : String) (r : DbRow)
    (hl : alookup st.apiKeys key = none)
    (hd : findActive st.db key = some r) :
    getApiKey .timeout .ok st key =
      ⟨some (toEntity r), { st with apiKeys := aset st.apiKeys key (toEntity r) }, 1, 2⟩ := by
  simp [getApiKey, hl, hd]

/-- **C8, witness** at a concrete state with `"k1"` only in the
Store. -/
theorem C8_witness :
    getApiKey .timeout .ok stStoreOnly "k1" =
      ⟨some (toEntity fooRow),
        { stStoreOnly with apiKeys := aset stStoreOnly.apiKeys "k1" (toEntity fooRow) },
        1, 2⟩ :=
  C8_timeout_degrades_to_store stStoreOnly "k1" fooRow rfl rfl

/-- **C5, counterexample.** The claim quantifies over keys with no
*positive* entry in either cache tier and no active Store row, and
asserts `getApiKey` then writes the negative marker with expiration
exactly 86400 s.  When the Distributed Cache already holds the negative
marker (a non-positive entry) with a residual expiration of 5 s, the
call returns `null` immediately and writes nothing: the marker keeps
its 5 s expiration, not 86400 s. -/
theorem C5_counterexample :
    (getApiKey .ok .ok stStaleMarker "z").result = none ∧
    (getApiKey .ok .ok stStaleMarker "z").state = stStaleMarker ∧
    alookup (getApiKey .ok .ok stStaleMarker "z").state.redis "api-key:z"
      = some ⟨.str "empty", some 5⟩ := by
  exact ⟨rfl, rfl, rfl⟩

/-- **C5, amended.** For any key with no entry at all in the
Distributed Cache (positive or negative), none in the Process-Local
Cache, and no active Store row, `getApiKey` returns `null`, writes the
negative marker `"empty"` to the Distributed Cache with an expiration of
exactly 86400 seconds, and leaves the Process-Local Cache untouched. -/
theorem C5_negative_marker (st : SysState) (key : String)
    (hl : alookup st.apiKeys key = none)
    (hr : alookup st.redis ("api-key:" ++ key) = none)
    (hd : findActive st.db key = none) :
    (getApiKey .ok .ok st key).result = none ∧
    alookup (getApiKey .ok .ok st key).state.redis ("api-key:" ++ key)
      = some ⟨.str "empty", some 86400⟩ ∧
    (getApiKey .ok .ok st key).state.apiKeys = st.apiKeys := by
  refine ⟨?_, ?_, ?_⟩ <;> simp [getApiKey, hl, hr, hd, truthy, alookup_aset_self]

/-- **C5, witness** for the amended theorem: key `"zz"` is nowhere in
the system. -/
theorem C5_witness :
    (getApiKey .ok .ok stStoreOnly "zz").result = none ∧
    alookup (getApiKey .ok .ok stStoreOnly "zz").state.redis ("api-key:" ++ "zz")
      = some ⟨.str "empty", some 86400⟩ ∧
    (getApiKey .ok .ok stStoreOnly "zz").state.apiKeys = stStoreOnly.apiKeys :=
  C5_negative_marker stStoreOnly "zz" rfl rfl rfl

/-- **C6.** For an active key present only in the Store, the first
`getApiKey` call returns the Entity and populates both the
Process-Local Cache and the Distributed Cache (positive entry, no
expiration); a second call for the same key in the same process returns
the same Entity from the Process-Local Cache with zero Store and zero
Distributed Cache calls — under any redis/Store behaviour, since no I/O
happens at all. -/
theorem C6_store_then_local_hit (st : SysState) (key : String) (r : DbRow)
    (hl : alookup st.apiKeys key = none)
    (hr : alookup st.redis ("api-key:" ++ key) = none)
    (hd : findActive st.db key = some r) :
    (getApiKey .ok .ok st key).result = some (toEntity r) ∧
    alookup (getApiKey .ok .ok st key).state.apiKeys key = some (toEntity r) ∧
    alookup (getApiKey .ok .ok st key).state.redis ("api-key:" ++ key)
      = some ⟨.json r, none⟩ ∧
    ∀ (m : RedisMode) (dm : DbMode),
      getApiKey m dm (getApiKey .ok .ok st key).state key
        = ⟨some (toEntity r), (getApiKey .ok .ok st key).state, 0, 0⟩ := by
  have h1 : getApiKey .ok .ok st key =
      ⟨some (toEntity r),
        { st with
          redis := aset st.redis ("api-key:" ++ key) ⟨.json r, none⟩,
          apiKeys := aset st.apiKeys key (toEntity r) }, 1, 2⟩ := by
    simp [getApiKey, hl, hr, hd, truthy]
  refine ⟨by rw [h1], ?_, ?_, ?_⟩
  · rw [h1]; exact alookup_aset_self _ _ _
  · rw [h1]; exact alookup_aset_self _ _ _
  · intro m dm
    rw [h1]
    simp [getApiKey, alookup_aset_self]

/-- **C6, witness** at a concrete state with `"k1"` only in the Store;
the second call is exercised with both redis and the Store erroring,
confirming it performs no I/O at all. -/
theorem C6_witness :
    (getApiKey .ok .ok stStoreOnly "k1").result = some (toEntity fooRow) ∧
    alookup (getApiKey .ok .ok stStoreOnly "k1").state.apiKeys "k1"
      = some (toEntity fooRow) ∧
    alookup (getApiKey .ok .ok stStoreOnly "k1").state.redis ("api-key:" ++ "k1")
      = some ⟨.json fooRow, none⟩ ∧
    getApiKey .error .error (getApiKey .ok .ok stStoreOnly "k1").state "k1"
      = ⟨some (toEntity fooRow), (getApiKey .ok .ok stStoreOnly "k1").state, 0, 0⟩ := by
  obtain ⟨h1, h2, h3, h4⟩ := C6_store_then_local_hit stStoreOnly "k1" fooRow rfl rfl rfl
  exact ⟨h1, h2, h3, h4 .error .error⟩

/-- The empty system state. -/
def stEmpty : SysState := ⟨[], [], [], []⟩

/-- A concrete stand-in for `getUuidByString` in closed instantiations
(the claims hold for every hash function, so any one will do). -/
def testUuid (s : String) : String := "u:" ++ s

/-- A creation request with an explicit key `"K"`. -/
def recK : ApiKeyRecord := ⟨"Foo", "foo.xyz", "a@b.com", 1, some "K"⟩

/-- **C2.** `create` caches the record under `"apikey:" + key` (no
dash, as a redis hash via `hset`), while `getApiKey` (and
`deleteCachedApiKey` and the write-through in `getApiKey`) use
`"api-key:" + key`.  Evaluated on a fresh state: after a successful
`create` of key `"K"` the only redis entry sits at `"apikey:K"`, the
lookup key `"api-key:K"` is absent, and the very next `getApiKey("K")`
must miss the cache and pay a Store round-trip — the entry written by
`create` is never readable by `getApiKey`. -/
theorem C2_create_cache_write_unreadable :
    (create testUuid .ok .ok .ok stEmpty recK).state.redis
      = [("apikey:K", ⟨.hash (recordEntries recK), none⟩)] ∧
    alookup (create testUuid .ok .ok .ok stEmpty recK).state.redis
      ("api-key:" ++ "K") = none ∧
    (getApiKey .ok .ok (create testUuid .ok .ok .ok stEmpty recK).state "K").storeCalls
      = 1 ∧
    (getApiKey .ok .ok (create testUuid .ok .ok .ok stEmpty recK).state "K").result
      = some (toEntity ⟨"K", "Foo", "foo.xyz", "a@b.com", 1, true⟩) := by
  exact ⟨rfl, rfl, rfl, rfl⟩

/-- **C3.** With no key supplied (`values.key` undefined), the key
derived by `create` is `getUuidByString` of the fixed string
`"undefined" ++ email ++ website`: it depends on `email` and `website`
only, so any two keyless `create` calls with identical `email` and
`website` — whatever their other fields, system states or I/O
behaviours — derive the same key string. -/
theorem C3_derived_key_deterministic (uuid : String → String)
    (i1 i2 : InsertMode) (c1 c2 : CacheWriteMode) (n1 n2 : NotifyMode)
    (s1 s2 : SysState) (v1 v2 : ApiKeyRecord)
    (h1 : v1.key = none) (h2 : v2.key = none)
    (he : v1.email = v2.email) (hw : v1.website = v2.website) :
    (create uuid i1 c1 n1 s1 v1).values.key
      = some (uuid ("undefined" ++ v1.email ++ v1.website)) ∧
    (create uuid i1 c1 n1 s1 v1).values.key
      = (create uuid i2 c2 n2 s2 v2).values.key := by
  cases i1 <;> cases i2 <;>
    simp [create, falsyKey, uuidSeed, jsShow, h1, h2, he, hw]

/-- **C3, witness**: two keyless requests sharing only email and
website. -/
theorem C3_witness :
    (create testUuid .ok .ok .ok stEmpty
        ⟨"A", "w", "e", 1, none⟩).values.key
      = some (testUuid ("undefined" ++ "e" ++ "w")) ∧
    (create testUuid .ok .ok .ok stEmpty
        ⟨"A", "w", "e", 1, none⟩).values.key
      = (create testUuid .error .error .error stStoreOnly
          ⟨"B", "w", "e", 2, none⟩).values.key :=
  C3_derived_key_deterministic testUuid .ok .error .ok .error
    .ok .error stEmpty stStoreOnly ⟨"A", "w", "e", 1, none⟩
    ⟨"B", "w", "e", 2, none⟩ rfl rfl rfl rfl

/-- The key under which `create` inserts: the derived uuid when
`values.key` is falsy, the supplied key otherwise. -/
def effectiveKey (uuid : String → String) (v : ApiKeyRecord) : String :=
  if falsyKey v.key then uuid (uuidSeed v) else jsShow v.key

theorem jsShow_mutated_key (uuid : String → String) (v : ApiKeyRecord) :
    jsShow (if falsyKey v.key then
        { v with key := some (uuid (uuidSeed v)) } else v).key
      = effectiveKey uuid v := by
  by_cases h : falsyKey v.key <;> simp [h, effectiveKey, jsShow]

/-- **C4.** The Audit Notifier runs exactly when the Store insert
created a new row: once when no row with the effective key pre-exists
(the `RETURNING 1` row is present), never on a conflict no-op, and
never when the insert errors (create returns `false` first).  The
value `create` returns is independent of the notifier's behaviour:
`notifyApiKeyCreated` swallows its own failures with `.catch`, so the
model's result does not mention the notify mode at all. -/
theorem C4_notify_exactly_on_new_row (uuid : String → String)
    (cw : CacheWriteMode) (nm : NotifyMode) (st : SysState) (v : ApiKeyRecord) :
    ((create uuid .ok cw nm st v).notifyCount
      = if st.db.find? (fun r => r.key = effectiveKey uuid v) = none
        then 1 else 0) ∧
    (create uuid .error cw nm st v).notifyCount = 0 ∧
    (∀ (ins : InsertMode) (nm' : NotifyMode),
      (create uuid ins cw nm st v).result = (create uuid ins cw nm' st v).result) := by
  refine ⟨?_, rfl, fun ins nm' => rfl⟩
  simp only [create, jsShow_mutated_key, Option.isNone_iff_eq_none]

/-- **C9.** `create` mutates the caller's record in place: when no key
was supplied, the derived key is assigned into the record's `key` field
before the insert is attempted, so the whole record comes back with
`key` set — and when the Store insert errors, `create` returns the
failure indicator (`false`) while the mutation persists. -/
theorem C9_create_mutates_record (uuid : String → String) (ins : InsertMode)
    (cw : CacheWriteMode) (nm : NotifyMode) (st : SysState) (v : ApiKeyRecord)
    (h : v.key = none) :
    (create uuid ins cw nm st v).values
      = { v with key := some (uuid ("undefined" ++ v.email ++ v.website)) } ∧
    (create uuid .error cw nm st v).result = none ∧
    (create uuid .error cw nm st v).values.key
      = some (uuid ("undefined" ++ v.email ++ v.website)) := by
  cases ins <;> simp [create, falsyKey, uuidSeed, jsShow, h]

/-- **C9, witness**: a keyless request against an erroring Store. -/
theorem C9_witness :
    (create testUuid .error .ok .ok stEmpty
        ⟨"Foo", "foo.xyz", "a@b.com", 1, none⟩).values
      = { app_name := "Foo", website := "foo.xyz", email := "a@b.com",
          tier := 1,
          key := some (testUuid
            ("undefined" ++ "a@b.com" ++ "foo.xyz")) } ∧
    (create testUuid .error .ok .ok stEmpty
        ⟨"Foo", "foo.xyz", "a@b.com", 1, none⟩).result = none ∧
    (create testUuid .error .ok .ok stEmpty
        ⟨"Foo", "foo.xyz", "a@b.com", 1, none⟩).values.key
      = some (testUuid ("undefined" ++ "a@b.com" ++ "foo.xyz")) :=
  C9_create_mutates_record testUuid .error .ok .ok stEmpty
    ⟨"Foo", "foo.xyz", "a@b.com", 1, none⟩ rfl

/-- **C7.** `update(key, {tier := n})` applies the Store update, evicts
the key from both the Process-Local Cache and the Distributed Cache,
and appends exactly one invalidation message `{key}` on the
invalidation channel; a same-process `getApiKey(key)` afterwards
(caches evicted, so it reads the Store) returns the Entity with the
updated tier rather than any pre-update cached value. -/
theorem C7_update_evicts_and_publishes (st : SysState) (key : String)
    (n : Int) (r : DbRow) (hd : findActive st.db key = some r) :
    (update st key { tier := some n }).published
      = st.published ++ [(apiKeyUpdatedChannel, invalidationPayload key)] ∧
    alookup (update st key { tier := some n }).apiKeys key = none ∧
    alookup (update st key { tier := some n }).redis ("api-key:" ++ key) = none ∧
    (getApiKey .ok .ok (update st key { tier := some n }) key).result
      = some (toEntity { r with tier := n }) := by
  have hl : alookup (update st key { tier := some n }).apiKeys key = none := by
    simp [update, deleteCachedApiKey, alookup_adel_self]
  have hr : alookup (update st key { tier := some n }).redis
      ("api-key:" ++ key) = none := by
    simp [update, deleteCachedApiKey, alookup_adel_self]
  have hdb : findActive (update st key { tier := some n }).db key
      = some (applyUpdate { tier := some n } r) := by
    simpa [update, deleteCachedApiKey]
      using findActive_map_update st.db key { tier := some n } r rfl hd
  refine ⟨by simp [update, deleteCachedApiKey], hl, hr, ?_⟩
  have happ : applyUpdate { tier := some n } r = { r with tier := n } := rfl
  simp [getApiKey, hl, hr, hdb, truthy, happ]

/-- **C7, witness**: updating the tier of `"k1"` to 9 in a
Store-only state. -/
theorem C7_witness :
    (update stStoreOnly "k1" { tier := some 9 }).published
      = stStoreOnly.published ++ [(apiKeyUpdatedChannel, invalidationPayload "k1")] ∧
    alookup (update stStoreOnly "k1" { tier := some 9 }).apiKeys "k1" = none ∧
    alookup (update stStoreOnly "k1" { tier := some 9 }).redis
      ("api-key:" ++ "k1") = none ∧
    (getApiKey .ok .ok (update stStoreOnly "k1" { tier := some 9 }) "k1").result
      = some (toEntity { fooRow with tier := 9 }) :=
  C7_update_evicts_and_publishes stStoreOnly "k1" 9 fooRow rfl

/-- One well-formed `SET` assignment, without the trailing comma. -/
def setAssignment (p : String × String) : String :=
  p.1 ++ " = $/" ++ p.2 ++ "/"

/-- **C10.** The `SET` clause generated by `update` is the
comma-separated list of one assignment per defined field with the
trailing comma removed; it is non-empty exactly when at least one
supplied field is defined, and degenerates to the empty string (a
malformed `UPDATE ... SET  WHERE ...`) when every field is undefined —
so that case must be excluded by precondition. -/
theorem C10_update_set_clause (f : ApiKeyUpdateParams) :
    updateString f
      = String.intercalate "," ((definedFields f).map setAssignment) ∧
    (definedFields f ≠ [] → updateString f ≠ "") ∧
    (definedFields f = [] → updateString f = "") := by
  rcases f with ⟨a, w, e, t, ac⟩
  cases a <;> cases w <;> cases e <;> cases t <;> cases ac <;>
    (simp only [updateString, definedFields, Option.isSome_some,
      Option.isSome_none]; decide)

/-- **C10, witness**: a single defined field yields the non-empty,
well-formed clause `tier = $/tier/`. -/
theorem C10_witness :
    definedFields ({ tier := some 2 } : ApiKeyUpdateParams) ≠ [] ∧
    updateString ({ tier := some 2 } : ApiKeyUpdateParams) ≠ "" :=
  ⟨by decide, (C10_update_set_clause { tier := some 2 }).2.1 (by decide)⟩

end ApiKeys
